import Mathlib

/-!
Shallow embedding of `src/spatial_ref/srs.rs`: the `SpatialRef` wrapper over
the OGR spatial-reference engine.

The foreign engine (GDAL's OSR C entry points) is modelled as a record of
pure functions (`Engine`): each field gives, for the arguments the wrapper
passes, the value the C call returns and the values it writes through its
out-pointers.  C pointers are modelled as `Option` values (`none` = null):
object handles as `Option Nat`, C strings as `Option String`.  Engine-returned
text is modelled as already-valid text (the spec's text-encoding boundary:
"All strings received from the engine are byte sequences assumed validly
decodable as text").

Each embedded wrapper function returns its Rust result together with the list
of foreign calls it made (`Event`), so that resource-discipline statements
(release/free on every path, no call with a given string) can be stated.
-/

set_option autoImplicit false

/-- OGRErr success code (`gdal_sys::OGRErr::OGRERR_NONE`). -/
def OGRERR_NONE : Nat := 0

/-- OGRErr generic failure code (`gdal_sys::OGRErr::OGRERR_FAILURE`); the
repository's own test `non_existing_proj_param` expects `err: 6` here. -/
def OGRERR_FAILURE : Nat := 6

/-- OGRErr code for an unsupported SRS (`gdal_sys::OGRErr::OGRERR_UNSUPPORTED_SRS`). -/
def OGRERR_UNSUPPORTED_SRS : Nat := 7

/-- Axis orientation `OGRAxisOrientation::OAO_Other` (the value
`axis_orientation` initializes its out-slot with). -/
def OAO_Other : Nat := 0

/-- Modelled from the spec: the structured error taxonomy of `errors.rs`
(not under `src/`).  `FfiNulError` and `StrUtf8Error` are the spec's
TextEncodingError category (host string with an embedded null byte /
engine bytes not valid text); `NullPointer` is the NullHandle category
produced by `_last_null_pointer_err` and carries the failing operation's
name; `OgrError` is the EngineError category (result code + operation
name); `AxisNotFoundError` carries the requested node key; `ParseError` is
the spec's parse category for authority-code parsing.  `srs.rs` itself
constructs only `NullPointer`, `OgrError` and `AxisNotFoundError` (plus the
conversions for `FfiNulError`/`StrUtf8Error` via `?`). -/
inductive GdalError where
  | FfiNulError : GdalError
  | StrUtf8Error : GdalError
  | NullPointer (method_name : String) : GdalError
  | OgrError (err : Nat) (method_name : String) : GdalError
  | AxisNotFoundError (key : String) (method_name : String) : GdalError
  | ParseError (method_name : String) : GdalError
deriving DecidableEq

/-- Whether an error is in the spec's ParseError category. -/
def GdalError.isParse : GdalError → Bool
  | .ParseError _ => true
  | _ => false

/-- Whether an error is the NullHandle-category error. -/
def GdalError.isNullPointer : GdalError → Bool
  | .NullPointer _ => true
  | _ => false

/-- Modelled from the spec: `utils.rs::_last_null_pointer_err` (not under
`src/`) — the NullHandle-category error carrying the failing method's name. -/
def last_null_pointer_err (method_name : String) : GdalError :=
  .NullPointer method_name

/-- Modelled from the spec: `utils.rs::_string` (not under `src/`) — decode an
engine-returned C string into an owned host string (engine text is modelled
as already-valid text; a null pointer decodes to the empty string). -/
def cstr_string (p : Option String) : String :=
  p.getD ""

/-- True iff the host string contains an embedded null byte, i.e. iff
`CString::new` on it fails with `NulError`. -/
def hasNul (s : String) : Bool :=
  s.toList.contains (Char.ofNat 0)

/-- `CString::new(s)?` as used throughout `srs.rs`: an embedded null byte is
a structured text-encoding error (the `From<NulError>` conversion of
`errors.rs` is modelled from the spec); otherwise the same bytes are passed on. -/
def cstringNew (s : String) : Except GdalError String :=
  if hasNul s then .error .FfiNulError else .ok s

/-- Rust's `u32 as libc::c_int`: a wrapping (two's-complement) cast of an
unsigned 32-bit value to a signed 32-bit value. -/
def u32_as_c_int (n : Nat) : Int :=
  if n < 2 ^ 31 then (n : Int) else (n : Int) - 2 ^ 32

/-- Rust's `i32::from_str` (base-10): optional single `+`/`-` sign, then one
or more decimal digits, nothing else, and the value must fit in `i32`. -/
def i32_from_str (s : String) : Option Int :=
  let digitsVal : List Char → Option Nat := fun cs =>
    if cs.isEmpty then none
    else
      cs.foldl
        (fun acc c =>
          match acc with
          | none => none
          | some n => if c.isDigit then some (n * 10 + (c.toNat - 48)) else none)
        (some 0)
  let signAndDigits : Int × List Char :=
    match s.toList with
    | '+' :: rest => (1, rest)
    | '-' :: rest => (-1, rest)
    | l => (1, l)
  match digitsVal signAndDigits.2 with
  | none => none
  | some n =>
    let v : Int := signAndDigits.1 * n
    if -(2 ^ 31) ≤ v ∧ v ≤ 2 ^ 31 - 1 then some v else none

/-- One foreign call made by the wrapper, with the arguments it passed and
(for allocators) the handle the engine returned. -/
inductive Event where
  | callNew (arg : Option String) (ret : Option Nat) : Event
  | callClone (arg : Option Nat) (ret : Option Nat) : Event
  | callRelease (h : Option Nat) : Event
  | callVSIFree (buf : Option String) : Event
  | callSetFromUserInput (h : Option Nat) (s : String) : Event
  | callImportFromEPSG (h : Option Nat) (code : Int) : Event
  | callImportFromProj4 (h : Option Nat) (s : String) : Event
  | callImportFromESRI (h : Option Nat) (strs : List (Option String)) : Event
  | callExport (method_name : String) (h : Option Nat) : Event
  | callGetAxis (h : Option Nat) (key : String) (axis : Int) : Event
  | callSetProjParm (h : Option Nat) (name : String) (value : Float) : Event
  | callGetProjParm (h : Option Nat) (name : String) (defaultValue : Float)
      (errSlotPassed : Bool) : Event
  | callSetAttrValue (h : Option Nat) (path : String) (value : String) : Event
  | callGetAttrValue (h : Option Nat) (path : String) (child : Int) : Event

/-- Whether the event is an `OSRRelease` call (object release). -/
def Event.isRelease : Event → Bool
  | .callRelease _ => true
  | _ => false

/-- Whether the event is a `VSIFree` call (engine-buffer release). -/
def Event.isVSIFree : Event → Bool
  | .callVSIFree _ => true
  | _ => false

/-- Whether the foreign call received the host string `x` among its string
arguments. -/
def Event.mentions : Event → String → Bool
  | .callNew a _, x => a == some x
  | .callClone _ _, _ => false
  | .callRelease _, _ => false
  | .callVSIFree b, x => b == some x
  | .callSetFromUserInput _ s, x => s == x
  | .callImportFromEPSG _ _, _ => false
  | .callImportFromProj4 _ s, x => s == x
  | .callImportFromESRI _ l, x => l.contains (some x)
  | .callExport _ _, _ => false
  | .callGetAxis _ k _, x => k == x
  | .callSetProjParm _ n _, x => n == x
  | .callGetProjParm _ n _ _, x => n == x
  | .callSetAttrValue _ p v, x => p == x || v == x
  | .callGetAttrValue _ p _, x => p == x

/-- Raw result of `OSRGetAreaOfUse`: the C return value and the values the
engine leaves in the five out-slots (which the wrapper initializes to
`0.0,0.0,0.0,0.0` and a null name pointer). -/
structure AreaRaw where
  ret : Int
  west : Float
  south : Float
  east : Float
  north : Float
  namePtr : Option String

/-- The foreign CRS engine, as the wrapper observes it: one pure function per
OSR entry point used by `srs.rs`, giving the returned value and the values
written through out-pointers.  `projParam` is the engine's
projection-parameter table, from which `OSRGetProjParm` is derived. -/
structure Engine where
  OSRNewSpatialReference : Option String → Option Nat
  OSRClone : Option Nat → Option Nat
  OSRIsSame : Option Nat → Option Nat → Int
  OSRSetFromUserInput : Option Nat → String → Nat
  OSRImportFromEPSG : Option Nat → Int → Nat
  OSRImportFromProj4 : Option Nat → String → Nat
  OSRImportFromESRI : Option Nat → List (Option String) → Nat
  OSRExportToWkt : Option Nat → Nat × Option String
  OSRExportToPrettyWkt : Option Nat → Int → Nat × Option String
  OSRExportToXML : Option Nat → Option String → Nat × Option String
  OSRExportToProj4 : Option Nat → Nat × Option String
  OSRExportToPROJJSON : Option Nat → Nat × Option String
  OSRGetAuthorityName : Option Nat → Option String → Option String
  OSRGetAuthorityCode : Option Nat → Option String → Option String
  OSRGetAxis : Option Nat → String → Int → Option String × Option Nat
  OSRGetSemiMajor : Option Nat → Float × Option Nat
  OSRGetSemiMinor : Option Nat → Float × Option Nat
  projParam : Option Nat → String → Option Float
  OSRSetProjParm : Option Nat → String → Float → Nat
  OSRSetAttrValue : Option Nat → String → String → Nat
  OSRGetAttrValue : Option Nat → String → Int → Option String
  OSRGetAreaOfUse : Option Nat → AreaRaw
  OSRIsGeographic : Option Nat → Int
  OSRIsDerivedGeographic : Option Nat → Int
  OSRIsLocal : Option Nat → Int
  OSRIsProjected : Option Nat → Int
  OSRIsCompound : Option Nat → Int
  OSRIsGeocentric : Option Nat → Int
  OSRIsVertical : Option Nat → Int

/-- `OSRGetProjParm(h, name, default, err_slot)`, derived from the engine's
parameter table: the engine's documented default-substitution (spec §4.7 and
the repository test `non_existing_proj_param`, which sees `err: 6`): when the
parameter is present it is returned with `OGRERR_NONE` written to a non-null
error slot; when absent, the caller-supplied default is returned with
`OGRERR_FAILURE` written. -/
def Engine.OSRGetProjParm (e : Engine) (h : Option Nat) (name : String)
    (defaultValue : Float) : Float × Nat :=
  match e.projParam h name with
  | some v => (v, OGRERR_NONE)
  | none => (defaultValue, OGRERR_FAILURE)

/-- `pub struct SpatialRef(gdal_sys::OGRSpatialReferenceH);` — the owned
wrapper; the stored pointer may be null (the struct itself does not enforce
non-nullity). -/
structure SpatialRef where
  ptr : Option Nat

/-- `pub struct AreaOfUse` of `srs.rs`. -/
structure AreaOfUse where
  west_lon_degree : Float
  south_lat_degree : Float
  east_lon_degree : Float
  north_lat_degree : Float
  name : String

/-- `SpatialRef::new`. -/
def SpatialRef.new (e : Engine) : Except GdalError SpatialRef × List Event :=
  let c_obj := e.OSRNewSpatialReference none
  if c_obj.isNone then
    (.error (last_null_pointer_err "OSRNewSpatialReference"), [Event.callNew none c_obj])
  else
    (.ok ⟨c_obj⟩, [Event.callNew none c_obj])

/-- `SpatialRef::from_c_obj` — clones the caller's handle; null clone result
is a null-handle error. -/
def SpatialRef.from_c_obj (e : Engine) (c_obj : Option Nat) :
    Except GdalError SpatialRef × List Event :=
  let mut_c_obj := e.OSRClone c_obj
  if mut_c_obj.isNone then
    (.error (last_null_pointer_err "OSRClone"), [Event.callClone c_obj mut_c_obj])
  else
    (.ok ⟨mut_c_obj⟩, [Event.callClone c_obj mut_c_obj])

/-- `impl Clone for SpatialRef` — wraps `OSRClone`'s result with no null
check. -/
def SpatialRef.clone (e : Engine) (s : SpatialRef) : SpatialRef × List Event :=
  let n_obj := e.OSRClone s.ptr
  (⟨n_obj⟩, [Event.callClone s.ptr n_obj])

/-- `impl Drop for SpatialRef` — releases the object once and nulls the
stored pointer. -/
def SpatialRef.drop (s : SpatialRef) : SpatialRef × List Event :=
  (⟨none⟩, [Event.callRelease s.ptr])

/-- `impl PartialEq for SpatialRef` — the engine's semantic-equivalence
predicate; exactly the return value `1` counts as equal. -/
def SpatialRef.eq (e : Engine) (a b : SpatialRef) : Bool :=
  e.OSRIsSame a.ptr b.ptr == 1

/-- `SpatialRef::from_definition` — allocate, then `OSRSetFromUserInput`.
The `CString` conversion of the argument happens after the allocation and
before the import call; no release happens on either failure path. -/
def SpatialRef.from_definition (e : Engine) (definition : String) :
    Except GdalError SpatialRef × List Event :=
  let c_obj := e.OSRNewSpatialReference none
  if c_obj.isNone then
    (.error (last_null_pointer_err "OSRNewSpatialReference"), [Event.callNew none c_obj])
  else
    match cstringNew definition with
    | .error err => (.error err, [Event.callNew none c_obj])
    | .ok cs =>
      let rv := e.OSRSetFromUserInput c_obj cs
      ((if rv ≠ OGRERR_NONE then .error (.OgrError rv "OSRSetFromUserInput")
        else .ok ⟨c_obj⟩),
       [Event.callNew none c_obj, Event.callSetFromUserInput c_obj cs])

/-- `SpatialRef::from_wkt` — the `CString` conversion precedes the single
allocate-and-parse call. -/
def SpatialRef.from_wkt (e : Engine) (wkt : String) :
    Except GdalError SpatialRef × List Event :=
  match cstringNew wkt with
  | .error err => (.error err, [])
  | .ok c_str =>
    let c_obj := e.OSRNewSpatialReference (some c_str)
    if c_obj.isNone then
      (.error (last_null_pointer_err "OSRNewSpatialReference"), [Event.callNew (some c_str) c_obj])
    else
      (.ok ⟨c_obj⟩, [Event.callNew (some c_str) c_obj])

/-- `SpatialRef::from_epsg` — allocate (result not null-checked), cast the
`u32` code to `c_int` with a wrapping cast, import; success is judged only by
the import's return code. -/
def SpatialRef.from_epsg (e : Engine) (epsg_code : Nat) :
    Except GdalError SpatialRef × List Event :=
  let c_obj := e.OSRNewSpatialReference none
  let ci := u32_as_c_int epsg_code
  let rv := e.OSRImportFromEPSG c_obj ci
  ((if rv ≠ OGRERR_NONE then .error (.OgrError rv "OSRImportFromEPSG")
    else .ok ⟨c_obj⟩),
   [Event.callNew none c_obj, Event.callImportFromEPSG c_obj ci])

/-- `SpatialRef::from_proj4` — `CString` conversion first, then allocate
(result not null-checked) and import. -/
def SpatialRef.from_proj4 (e : Engine) (proj4_string : String) :
    Except GdalError SpatialRef × List Event :=
  match cstringNew proj4_string with
  | .error err => (.error err, [])
  | .ok c_str =>
    let c_obj := e.OSRNewSpatialReference none
    let rv := e.OSRImportFromProj4 c_obj c_str
    ((if rv ≠ OGRERR_NONE then .error (.OgrError rv "OSRImportFromProj4")
      else .ok ⟨c_obj⟩),
     [Event.callNew none c_obj, Event.callImportFromProj4 c_obj c_str])

/-- `SpatialRef::from_esri` — `CString` conversion first; the engine gets a
one-string array terminated by a null entry. -/
def SpatialRef.from_esri (e : Engine) (esri_wkt : String) :
    Except GdalError SpatialRef × List Event :=
  match cstringNew esri_wkt with
  | .error err => (.error err, [])
  | .ok c_str =>
    let ptrs : List (Option String) := [some c_str, none]
    let c_obj := e.OSRNewSpatialReference none
    let rv := e.OSRImportFromESRI c_obj ptrs
    ((if rv ≠ OGRERR_NONE then .error (.OgrError rv "OSRImportFromESRI")
      else .ok ⟨c_obj⟩),
     [Event.callNew none c_obj, Event.callImportFromESRI c_obj ptrs])

/-- `SpatialRef::to_wkt` — export, then `VSIFree` the engine buffer on both
the success and the failure path. -/
def SpatialRef.to_wkt (e : Engine) (s : SpatialRef) :
    Except GdalError String × List Event :=
  let r := e.OSRExportToWkt s.ptr
  let res : Except GdalError String :=
    if r.1 ≠ OGRERR_NONE then .error (.OgrError r.1 "OSRExportToWkt")
    else .ok (cstr_string r.2)
  (res, [Event.callExport "OSRExportToWkt" s.ptr, Event.callVSIFree r.2])

/-- `SpatialRef::to_pretty_wkt` — multi-line export (`simplify = false`,
i.e. `0`), then `VSIFree` on both paths. -/
def SpatialRef.to_pretty_wkt (e : Engine) (s : SpatialRef) :
    Except GdalError String × List Event :=
  let r := e.OSRExportToPrettyWkt s.ptr 0
  let res : Except GdalError String :=
    if r.1 ≠ OGRERR_NONE then .error (.OgrError r.1 "OSRExportToPrettyWkt")
    else .ok (cstr_string r.2)
  (res, [Event.callExport "OSRExportToPrettyWkt" s.ptr, Event.callVSIFree r.2])

/-- `SpatialRef::to_xml` — export (null dialect pointer), then `VSIFree` on
both paths. -/
def SpatialRef.to_xml (e : Engine) (s : SpatialRef) :
    Except GdalError String × List Event :=
  let r := e.OSRExportToXML s.ptr none
  let res : Except GdalError String :=
    if r.1 ≠ OGRERR_NONE then .error (.OgrError r.1 "OSRExportToXML")
    else .ok (cstr_string r.2)
  (res, [Event.callExport "OSRExportToXML" s.ptr, Event.callVSIFree r.2])

/-- `SpatialRef::to_proj4` — export, then `VSIFree` on both paths. -/
def SpatialRef.to_proj4 (e : Engine) (s : SpatialRef) :
    Except GdalError String × List Event :=
  let r := e.OSRExportToProj4 s.ptr
  let res : Except GdalError String :=
    if r.1 ≠ OGRERR_NONE then .error (.OgrError r.1 "OSRExportToProj4")
    else .ok (cstr_string r.2)
  (res, [Event.callExport "OSRExportToProj4" s.ptr, Event.callVSIFree r.2])

/-- `SpatialRef::to_projjson` — export (null options), then `VSIFree` on both
paths. -/
def SpatialRef.to_projjson (e : Engine) (s : SpatialRef) :
    Except GdalError String × List Event :=
  let r := e.OSRExportToPROJJSON s.ptr
  let res : Except GdalError String :=
    if r.1 ≠ OGRERR_NONE then .error (.OgrError r.1 "OSRExportToPROJJSON")
    else .ok (cstr_string r.2)
  (res, [Event.callExport "OSRExportToPROJJSON" s.ptr, Event.callVSIFree r.2])

/-- `SpatialRef::auth_code` — null text is the null-handle error; otherwise
the text is parsed with `i32::from_str`; a parse failure is an
`OgrError { err: OGRERR_UNSUPPORTED_SRS }`. -/
def SpatialRef.auth_code (e : Engine) (s : SpatialRef) : Except GdalError Int :=
  match e.OSRGetAuthorityCode s.ptr none with
  | none => .error (last_null_pointer_err "OSRGetAuthorityCode")
  | some text =>
    match i32_from_str text with
    | some n => .ok n
    | none => .error (.OgrError OGRERR_UNSUPPORTED_SRS "OSRGetAuthorityCode")

/-- `SpatialRef::axis_orientation` — the orientation out-slot starts at
`OAO_Other`; a null name pointer (with no diagnostic) becomes the
axis-not-found error carrying the requested key. -/
def SpatialRef.axis_orientation (e : Engine) (s : SpatialRef) (target_key : String)
    (axis : Int) : Except GdalError Nat × List Event :=
  match cstringNew target_key with
  | .error err => (.error err, [])
  | .ok key =>
    let r := e.OSRGetAxis s.ptr key axis
    let tr := [Event.callGetAxis s.ptr key axis]
    if r.1.isNone then
      (.error (.AxisNotFoundError target_key "OSRGetAxis"), tr)
    else
      (.ok (r.2.getD OAO_Other), tr)

/-- `SpatialRef::axis_name` — same engine call with a null orientation slot;
a null name pointer becomes the axis-not-found error carrying the key. -/
def SpatialRef.axis_name (e : Engine) (s : SpatialRef) (target_key : String)
    (axis : Int) : Except GdalError String × List Event :=
  match cstringNew target_key with
  | .error err => (.error err, [])
  | .ok key =>
    let r := e.OSRGetAxis s.ptr key axis
    let tr := [Event.callGetAxis s.ptr key axis]
    match r.1 with
    | none => (.error (.AxisNotFoundError target_key "OSRGetAxis"), tr)
    | some nm => (.ok nm, tr)

/-- `SpatialRef::semi_major` — the error slot starts at `OGRERR_NONE`; the
code is checked after the call regardless of the returned double. -/
def SpatialRef.semi_major (e : Engine) (s : SpatialRef) : Except GdalError Float :=
  let r := e.OSRGetSemiMajor s.ptr
  let rv := r.2.getD OGRERR_NONE
  if rv ≠ OGRERR_NONE then .error (.OgrError rv "OSRGetSemiMajor")
  else .ok r.1

/-- `SpatialRef::semi_minor` — as `semi_major`. -/
def SpatialRef.semi_minor (e : Engine) (s : SpatialRef) : Except GdalError Float :=
  let r := e.OSRGetSemiMinor s.ptr
  let rv := r.2.getD OGRERR_NONE
  if rv ≠ OGRERR_NONE then .error (.OgrError rv "OSRGetSemiMinor")
  else .ok r.1

/-- `SpatialRef::set_proj_param`. -/
def SpatialRef.set_proj_param (e : Engine) (s : SpatialRef) (name : String)
    (value : Float) : Except GdalError Unit × List Event :=
  match cstringNew name with
  | .error err => (.error err, [])
  | .ok c_name =>
    let rv := e.OSRSetProjParm s.ptr c_name value
    let tr := [Event.callSetProjParm s.ptr c_name value]
    if rv ≠ OGRERR_NONE then (.error (.OgrError rv "OSRSetProjParm"), tr)
    else (.ok (), tr)

/-- `SpatialRef::get_proj_param` — placeholder default `0.0`, a non-null
error slot, and the code checked after the call. -/
def SpatialRef.get_proj_param (e : Engine) (s : SpatialRef) (name : String) :
    Except GdalError Float × List Event :=
  match cstringNew name with
  | .error err => (.error err, [])
  | .ok c_name =>
    let r := e.OSRGetProjParm s.ptr c_name 0.0
    let tr := [Event.callGetProjParm s.ptr c_name 0.0 true]
    if r.2 ≠ OGRERR_NONE then (.error (.OgrError r.2 "OSRGetProjParm"), tr)
    else (.ok r.1, tr)

/-- `SpatialRef::get_proj_param_or_default` — infallible: a `CString` failure
yields the default without any foreign call; otherwise the engine is called
with a null error slot, so its own default-substitution applies. -/
def SpatialRef.get_proj_param_or_default (e : Engine) (s : SpatialRef) (name : String)
    (defaultValue : Float) : Float × List Event :=
  match cstringNew name with
  | .ok c_name =>
    ((e.OSRGetProjParm s.ptr c_name defaultValue).1,
      [Event.callGetProjParm s.ptr c_name defaultValue false])
  | .error _ => (defaultValue, [])

/-- `SpatialRef::set_attr_value` — both strings converted (path first) before
the call. -/
def SpatialRef.set_attr_value (e : Engine) (s : SpatialRef) (node_path new_value : String) :
    Except GdalError Unit × List Event :=
  match cstringNew node_path with
  | .error err => (.error err, [])
  | .ok c_path =>
    match cstringNew new_value with
    | .error err => (.error err, [])
    | .ok c_val =>
      let rv := e.OSRSetAttrValue s.ptr c_path c_val
      let tr := [Event.callSetAttrValue s.ptr c_path c_val]
      if rv ≠ OGRERR_NONE then (.error (.OgrError rv "OSRSetAttrValue"), tr)
      else (.ok (), tr)

/-- `SpatialRef::get_attr_value` — the `u32` child index is cast to `c_int`
with a wrapping cast; a null result is the null-handle error. -/
def SpatialRef.get_attr_value (e : Engine) (s : SpatialRef) (node_path : String)
    (child : Nat) : Except GdalError String × List Event :=
  match cstringNew node_path with
  | .error err => (.error err, [])
  | .ok c_path =>
    let ci := u32_as_c_int child
    ((match e.OSRGetAttrValue s.ptr c_path ci with
      | none => .error (last_null_pointer_err "OSRGetAttrValue")
      | some v => .ok v),
     [Event.callGetAttrValue s.ptr c_path ci])

/-- `SpatialRef::area_of_use` — `Option`, not `Result`: exactly the engine
return value `1` produces a populated `AreaOfUse`; anything else is `None`. -/
def SpatialRef.area_of_use (e : Engine) (s : SpatialRef) : Option AreaOfUse :=
  let r := e.OSRGetAreaOfUse s.ptr
  if r.ret = 1 then
    some { west_lon_degree := r.west, south_lat_degree := r.south,
           east_lon_degree := r.east, north_lat_degree := r.north,
           name := cstr_string r.namePtr }
  else
    none

/-- `SpatialRef::is_geographic`. -/
def SpatialRef.is_geographic (e : Engine) (s : SpatialRef) : Bool :=
  e.OSRIsGeographic s.ptr == 1

/-- `SpatialRef::is_derived_geographic`. -/
def SpatialRef.is_derived_geographic (e : Engine) (s : SpatialRef) : Bool :=
  e.OSRIsDerivedGeographic s.ptr == 1

/-- `SpatialRef::is_local`. -/
def SpatialRef.is_local (e : Engine) (s : SpatialRef) : Bool :=
  e.OSRIsLocal s.ptr == 1

/-- `SpatialRef::is_projected`. -/
def SpatialRef.is_projected (e : Engine) (s : SpatialRef) : Bool :=
  e.OSRIsProjected s.ptr == 1

/-- `SpatialRef::is_compound`. -/
def SpatialRef.is_compound (e : Engine) (s : SpatialRef) : Bool :=
  e.OSRIsCompound s.ptr == 1

/-- `SpatialRef::is_geocentric`. -/
def SpatialRef.is_geocentric (e : Engine) (s : SpatialRef) : Bool :=
  e.OSRIsGeocentric s.ptr == 1

/-- `SpatialRef::is_vertical`. -/
def SpatialRef.is_vertical (e : Engine) (s : SpatialRef) : Bool :=
  e.OSRIsVertical s.ptr == 1

/-- True iff a construction result, when successful, wraps a non-null engine
reference. -/
def okNonNull : Except GdalError SpatialRef → Bool
  | .ok s => s.ptr.isSome
  | .error _ => true

/-- A benign concrete engine: allocation yields handle `1`, every import and
mutation succeeds, exports succeed, EPSG:4326-like answers. -/
def eng0 : Engine where
  OSRNewSpatialReference := fun _ => some 1
  OSRClone := fun p => p
  OSRIsSame := fun _ _ => 1
  OSRSetFromUserInput := fun _ _ => OGRERR_NONE
  OSRImportFromEPSG := fun _ _ => OGRERR_NONE
  OSRImportFromProj4 := fun _ _ => OGRERR_NONE
  OSRImportFromESRI := fun _ _ => OGRERR_NONE
  OSRExportToWkt := fun _ => (OGRERR_NONE, some "GEOGCS")
  OSRExportToPrettyWkt := fun _ _ => (OGRERR_NONE, some "GEOGCS")
  OSRExportToXML := fun _ _ => (OGRERR_NONE, some "xml")
  OSRExportToProj4 := fun _ => (OGRERR_NONE, some "+proj=longlat")
  OSRExportToPROJJSON := fun _ => (OGRERR_NONE, some "projjson")
  OSRGetAuthorityName := fun _ _ => some "EPSG"
  OSRGetAuthorityCode := fun _ _ => some "4326"
  OSRGetAxis := fun _ _ _ => (some "Latitude", some 1)
  OSRGetSemiMajor := fun _ => (2.0, some OGRERR_NONE)
  OSRGetSemiMinor := fun _ => (1.0, some OGRERR_NONE)
  projParam := fun _ _ => none
  OSRSetProjParm := fun _ _ _ => OGRERR_NONE
  OSRSetAttrValue := fun _ _ _ => OGRERR_NONE
  OSRGetAttrValue := fun _ _ _ => some "WGS 84"
  OSRGetAreaOfUse := fun _ => ⟨1, -180.0, -90.0, 180.0, 90.0, some "World"⟩
  OSRIsGeographic := fun _ => 1
  OSRIsDerivedGeographic := fun _ => 0
  OSRIsLocal := fun _ => 0
  OSRIsProjected := fun _ => 0
  OSRIsCompound := fun _ => 0
  OSRIsGeocentric := fun _ => 0
  OSRIsVertical := fun _ => 0

/-- Engine whose imports fail with `OGRERR_FAILURE` (allocation still yields
handle `1`). -/
def engImportFails : Engine :=
  { eng0 with
    OSRSetFromUserInput := fun _ _ => OGRERR_FAILURE
    OSRImportFromEPSG := fun _ _ => OGRERR_FAILURE
    OSRImportFromProj4 := fun _ _ => OGRERR_FAILURE
    OSRImportFromESRI := fun _ _ => OGRERR_FAILURE }

/-- Engine whose `OSRClone` returns a null handle. -/
def engNullClone : Engine :=
  { eng0 with OSRClone := fun _ => none }

/-- Engine whose allocation returns a null handle while imports still report
success. -/
def engNullAlloc : Engine :=
  { eng0 with OSRNewSpatialReference := fun _ => none }

/-- Engine whose authority-code text is the non-numeric `"abc"`. -/
def engAuthAbc : Engine :=
  { eng0 with OSRGetAuthorityCode := fun _ _ => some "abc" }

/-- Engine whose axis query returns a null name pointer and writes nothing. -/
def engAxisNull : Engine :=
  { eng0 with OSRGetAxis := fun _ _ _ => (none, none) }

/-- Engine whose ellipsoid queries return best-effort doubles together with a
failure code. -/
def engSemiFail : Engine :=
  { eng0 with
    OSRGetSemiMajor := fun _ => (1.5, some OGRERR_FAILURE)
    OSRGetSemiMinor := fun _ => (1.25, some OGRERR_FAILURE) }

/-- Engine reporting no area of use (return value `0`, out-slots untouched). -/
def engNoArea : Engine :=
  { eng0 with OSRGetAreaOfUse := fun _ => ⟨0, 0.0, 0.0, 0.0, 0.0, none⟩ }

/-- Engine whose predicates return the error-sentinel `-1`. -/
def engNeg : Engine :=
  { eng0 with
    OSRIsGeographic := fun _ => -1
    OSRIsSame := fun _ _ => -1 }

/-- Claim C1, counterexample: with an engine whose allocation succeeds
(handle `1`) and whose `OSRSetFromUserInput` fails with code `6`,
`from_definition` returns the structured error while its foreign-call trace
is exactly the allocation and the failed import — it contains no `OSRRelease`,
so the allocated engine object is not released on this failure path. -/
theorem srs_c1_counterexample :
    (SpatialRef.from_definition engImportFails "EPSG:4326").1 =
      .error (.OgrError OGRERR_FAILURE "OSRSetFromUserInput") ∧
    (SpatialRef.from_definition engImportFails "EPSG:4326").2 =
      [Event.callNew none (some 1), Event.callSetFromUserInput (some 1) "EPSG:4326"] ∧
    ((SpatialRef.from_definition engImportFails "EPSG:4326").2.all
      fun ev => !ev.isRelease) = true :=
  ⟨rfl, rfl, rfl⟩

/-- Claim C1 (amended): every export accessor (`to_wkt`, `to_pretty_wkt`,
`to_xml`, `to_proj4`, `to_projjson`) calls `VSIFree` on the engine buffer
exactly once, on the success path and on the failure path alike; but the
fallible construction operations (`from_definition`, `from_epsg`,
`from_proj4`, `from_esri`) never call `OSRRelease`, so when import fails the
allocated engine object is returned unreleased alongside the error. -/
theorem srs_c1_amended (e : Engine) (s : SpatialRef) (d p es : String) (c : Nat) :
    ((SpatialRef.to_wkt e s).2.countP Event.isVSIFree) = 1 ∧
    ((SpatialRef.to_pretty_wkt e s).2.countP Event.isVSIFree) = 1 ∧
    ((SpatialRef.to_xml e s).2.countP Event.isVSIFree) = 1 ∧
    ((SpatialRef.to_proj4 e s).2.countP Event.isVSIFree) = 1 ∧
    ((SpatialRef.to_projjson e s).2.countP Event.isVSIFree) = 1 ∧
    ((SpatialRef.from_definition e d).2.all fun ev => !ev.isRelease) = true ∧
    ((SpatialRef.from_epsg e c).2.all fun ev => !ev.isRelease) = true ∧
    ((SpatialRef.from_proj4 e p).2.all fun ev => !ev.isRelease) = true ∧
    ((SpatialRef.from_esri e es).2.all fun ev => !ev.isRelease) = true := by
  refine ⟨rfl, rfl, rfl, rfl, rfl, ?_, rfl, ?_, ?_⟩
  · cases hN : e.OSRNewSpatialReference none <;> cases hC : cstringNew d <;>
      simp [SpatialRef.from_definition, hN, hC, Event.isRelease]
  · cases hC : cstringNew p <;>
      simp [SpatialRef.from_proj4, hC, Event.isRelease]
  · cases hC : cstringNew es <;>
      simp [SpatialRef.from_esri, hC, Event.isRelease]

/-- Claim C2, counterexample: `Clone` wraps `OSRClone`'s result with no null
check, so with an engine whose clone primitive yields null the "successful"
clone carries a null reference; and `from_epsg` never null-checks the
allocation, so an engine whose allocation returns null while the import
reports success makes `from_epsg` return `Ok` around a null reference. -/
theorem srs_c2_counterexample :
    (SpatialRef.clone engNullClone ⟨some 1⟩).1.ptr = none ∧
    (SpatialRef.from_epsg engNullAlloc 4326).1 = .ok ⟨none⟩ :=
  ⟨rfl, rfl⟩

/-- Claim C2 (amended): `new`, `from_definition`, `from_wkt` and `from_c_obj`
null-check the handle they wrap, so their successful results always carry a
non-null reference; `from_epsg`, `from_proj4` and `from_esri` wrap the
unchecked allocation result, so their successful results carry a non-null
reference provided the engine's allocation succeeded; `clone` performs no
check at all and stores exactly whatever `OSRClone` returned. -/
theorem srs_c2_amended (e : Engine) (d w p es : String) (c : Nat) (h0 : Option Nat)
    (s : SpatialRef)
    (halloc : (e.OSRNewSpatialReference none).isSome = true) :
    okNonNull (SpatialRef.new e).1 = true ∧
    okNonNull (SpatialRef.from_definition e d).1 = true ∧
    okNonNull (SpatialRef.from_wkt e w).1 = true ∧
    okNonNull (SpatialRef.from_c_obj e h0).1 = true ∧
    okNonNull (SpatialRef.from_epsg e c).1 = true ∧
    okNonNull (SpatialRef.from_proj4 e p).1 = true ∧
    okNonNull (SpatialRef.from_esri e es).1 = true ∧
    (SpatialRef.clone e s).1.ptr = e.OSRClone s.ptr := by
  obtain ⟨a, ha⟩ := Option.isSome_iff_exists.mp halloc
  refine ⟨?_, ?_, ?_, ?_, ?_, ?_, ?_, rfl⟩
  · rcases hN : e.OSRNewSpatialReference none with _ | b <;>
      simp [SpatialRef.new, hN, okNonNull]
  · rcases hC : cstringNew d with err | cs
    · simp [SpatialRef.from_definition, ha, hC, okNonNull]
    · simp only [SpatialRef.from_definition, ha, hC]
      simp only [Option.isNone_some, Bool.false_eq_true, if_false]
      split <;> rfl
  · rcases hC : cstringNew w with err | cs
    · simp [SpatialRef.from_wkt, hC, okNonNull]
    · rcases hN : e.OSRNewSpatialReference (some cs) with _ | b <;>
        simp [SpatialRef.from_wkt, hC, hN, okNonNull]
  · rcases hN : e.OSRClone h0 with _ | b <;>
      simp [SpatialRef.from_c_obj, hN, okNonNull]
  · simp only [SpatialRef.from_epsg, ha]
    split <;> rfl
  · rcases hC : cstringNew p with err | cs
    · simp [SpatialRef.from_proj4, hC, okNonNull]
    · simp only [SpatialRef.from_proj4, ha, hC]
      split <;> rfl
  · rcases hC : cstringNew es with err | cs
    · simp [SpatialRef.from_esri, hC, okNonNull]
    · simp only [SpatialRef.from_esri, ha, hC]
      split <;> rfl

/-- Claim C2 (amended), witness at a concrete engine: with `eng0` (allocation
yields handle `1`), an EPSG construction succeeds with a non-null reference
and the clone stores exactly the engine's clone result. -/
theorem srs_c2_amended_witness :
    okNonNull (SpatialRef.from_epsg eng0 4326).1 = true ∧
    (SpatialRef.clone eng0 ⟨some 1⟩).1.ptr = eng0.OSRClone (some 1) :=
  ⟨(srs_c2_amended eng0 "d" "w" "p" "e" 4326 (some 1) ⟨some 1⟩ rfl).2.2.2.2.1,
   (srs_c2_amended eng0 "d" "w" "p" "e" 4326 (some 1) ⟨some 1⟩ rfl).2.2.2.2.2.2.2⟩

/-- Claim C3, counterexample: with an engine returning the non-null,
non-numeric authority-code text `"abc"`, `auth_code` fails with the
engine-code error `OgrError { err: OGRERR_UNSUPPORTED_SRS }` — not with a
parse-category (`ParseError`) structured error as the claim states. -/
theorem srs_c3_counterexample :
    engAuthAbc.OSRGetAuthorityCode (some 1) none = some "abc" ∧
    i32_from_str "abc" = none ∧
    SpatialRef.auth_code engAuthAbc ⟨some 1⟩ =
      .error (.OgrError OGRERR_UNSUPPORTED_SRS "OSRGetAuthorityCode") ∧
    (GdalError.OgrError OGRERR_UNSUPPORTED_SRS "OSRGetAuthorityCode").isParse = false :=
  ⟨rfl, rfl, rfl, rfl⟩

/-- Claim C3 (amended): `auth_code` parses the engine-returned authority-code
text as a base-10 `i32`; when the non-null text is non-numeric it fails with
the engine-code error `OgrError { err: OGRERR_UNSUPPORTED_SRS, method_name:
"OSRGetAuthorityCode" }`, which is distinct from the null-handle error
returned when no authority is present. -/
theorem srs_c3_amended (e : Engine) (s : SpatialRef) (t : String)
    (hnn : e.OSRGetAuthorityCode s.ptr none = some t) :
    (∀ n, i32_from_str t = some n → SpatialRef.auth_code e s = .ok n) ∧
    (i32_from_str t = none →
      SpatialRef.auth_code e s =
        .error (.OgrError OGRERR_UNSUPPORTED_SRS "OSRGetAuthorityCode") ∧
      SpatialRef.auth_code e s ≠ .error (last_null_pointer_err "OSRGetAuthorityCode")) := by
  constructor
  · intro n hp
    simp [SpatialRef.auth_code, hnn, hp]
  · intro hp
    refine ⟨by simp [SpatialRef.auth_code, hnn, hp], ?_⟩
    simp [SpatialRef.auth_code, hnn, hp, last_null_pointer_err]

/-- Claim C3 (amended), witness: with `eng0` (authority-code text `"4326"`),
`auth_code` parses the text in base 10 and returns `4326`. -/
theorem srs_c3_amended_witness :
    SpatialRef.auth_code eng0 ⟨some 1⟩ = .ok 4326 :=
  (srs_c3_amended eng0 ⟨some 1⟩ "4326" rfl).1 4326 (by decide)

/-- Claim C4: whenever the key has no embedded null byte and the engine's
`OSRGetAxis` returns a null name reference, both `axis_orientation` and
`axis_name` fail with the specialized axis-not-found error carrying the
requested node key and the operation name `"OSRGetAxis"`; that error is not
the generic null-handle error, and differs from every engine-code error. -/
theorem srs_c4 (e : Engine) (s : SpatialRef) (key : String) (axis : Int)
    (hkey : hasNul key = false)
    (hnull : (e.OSRGetAxis s.ptr key axis).1 = none) :
    (SpatialRef.axis_orientation e s key axis).1 =
      .error (.AxisNotFoundError key "OSRGetAxis") ∧
    (SpatialRef.axis_name e s key axis).1 =
      .error (.AxisNotFoundError key "OSRGetAxis") ∧
    (GdalError.AxisNotFoundError key "OSRGetAxis").isNullPointer = false ∧
    ∀ n m, GdalError.AxisNotFoundError key "OSRGetAxis" ≠ .OgrError n m := by
  refine ⟨?_, ?_, rfl, fun n m => by simp⟩
  · simp [SpatialRef.axis_orientation, cstringNew, hkey, hnull]
  · simp only [SpatialRef.axis_name, cstringNew, hkey, Bool.false_eq_true, if_false]
    rcases hx : (e.OSRGetAxis s.ptr key axis).1 with _ | nm
    · simp
    · exact absurd (hx ▸ hnull) (by simp)

/-- Claim C4, witness: an engine whose axis query yields a null reference
makes `axis_orientation("DOES_NOT_EXIST", 0)` fail with the axis-not-found
error carrying that key. -/
theorem srs_c4_witness :
    (SpatialRef.axis_orientation engAxisNull ⟨some 1⟩ "DOES_NOT_EXIST" 0).1 =
      .error (.AxisNotFoundError "DOES_NOT_EXIST" "OSRGetAxis") :=
  (srs_c4 engAxisNull ⟨some 1⟩ "DOES_NOT_EXIST" 0 (by decide) rfl).1

/-- Claim C5: `semi_major` and `semi_minor` check the engine's result code
after the call regardless of the returned double: exactly when the code the
engine leaves in the slot (initialized `OGRERR_NONE`) is non-success they
fail with the engine-code error, discarding the engine's best-effort value;
exactly when it is success they return the engine's double. -/
theorem srs_c5 (e : Engine) (s : SpatialRef) (a b : Float) (ra rb : Option Nat)
    (hA : e.OSRGetSemiMajor s.ptr = (a, ra)) (hB : e.OSRGetSemiMinor s.ptr = (b, rb)) :
    SpatialRef.semi_major e s =
      (if ra.getD OGRERR_NONE ≠ OGRERR_NONE
        then .error (.OgrError (ra.getD OGRERR_NONE) "OSRGetSemiMajor")
        else .ok a) ∧
    SpatialRef.semi_minor e s =
      (if rb.getD OGRERR_NONE ≠ OGRERR_NONE
        then .error (.OgrError (rb.getD OGRERR_NONE) "OSRGetSemiMinor")
        else .ok b) := by
  constructor
  · simp only [SpatialRef.semi_major, hA]
  · simp only [SpatialRef.semi_minor, hB]

/-- Claim C5, witness: an engine returning the best-effort double `1.5`
together with failure code `6` makes `semi_major` fail with that code,
discarding the double. -/
theorem srs_c5_witness :
    SpatialRef.semi_major engSemiFail ⟨some 1⟩ =
      .error (.OgrError OGRERR_FAILURE "OSRGetSemiMajor") := by
  have h := (srs_c5 engSemiFail ⟨some 1⟩ 1.5 1.25
    (some OGRERR_FAILURE) (some OGRERR_FAILURE) rfl rfl).1
  simpa [OGRERR_FAILURE, OGRERR_NONE] using h

/-- Claim C6: `get_proj_param_or_default` is infallible: it returns the
default when the name has an embedded null byte (making no foreign call),
and it passes no failure-output slot to the engine, so when the parameter is
absent the engine's default-substitution returns exactly the supplied
default — the same situation in which `get_proj_param` fails with
`OgrError { err: OGRERR_FAILURE }`. -/
theorem srs_c6 (e : Engine) (s : SpatialRef) (name : String) (d : Float) :
    (hasNul name = true → SpatialRef.get_proj_param_or_default e s name d = (d, [])) ∧
    (hasNul name = false →
      (SpatialRef.get_proj_param_or_default e s name d).2 =
        [Event.callGetProjParm s.ptr name d false] ∧
      (e.projParam s.ptr name = none →
        (SpatialRef.get_proj_param_or_default e s name d).1 = d ∧
        (SpatialRef.get_proj_param e s name).1 =
          .error (.OgrError OGRERR_FAILURE "OSRGetProjParm"))) := by
  refine ⟨fun h => ?_, fun h => ⟨?_, fun hp => ⟨?_, ?_⟩⟩⟩
  · simp [SpatialRef.get_proj_param_or_default, cstringNew, h]
  · simp [SpatialRef.get_proj_param_or_default, cstringNew, h]
  · simp [SpatialRef.get_proj_param_or_default, cstringNew, h,
      Engine.OSRGetProjParm, hp]
  · simp [SpatialRef.get_proj_param, cstringNew, h, Engine.OSRGetProjParm, hp,
      OGRERR_FAILURE, OGRERR_NONE]

/-- Claim C6, witness: on `eng0` (no parameter table entries),
`get_proj_param_or_default("spam", 15.0)` returns exactly `15.0` while
`get_proj_param("spam")` fails with `OgrError { err: 6 }`. -/
theorem srs_c6_witness :
    (SpatialRef.get_proj_param_or_default eng0 ⟨some 1⟩ "spam" 15.0).1 = 15.0 ∧
    (SpatialRef.get_proj_param eng0 ⟨some 1⟩ "spam").1 =
      .error (.OgrError OGRERR_FAILURE "OSRGetProjParm") :=
  ⟨(((srs_c6 eng0 ⟨some 1⟩ "spam" 15.0).2 (by decide)).2 rfl).1,
   (((srs_c6 eng0 ⟨some 1⟩ "spam" 15.0).2 (by decide)).2 rfl).2⟩

/-- Claim C7: `area_of_use` yields an absent value (`none`, not an error)
whenever the engine's return value is anything other than `1`, and yields the
populated `AreaOfUse` (bounds plus decoded name) exactly when the engine
returns `1`. -/
theorem srs_c7 (e : Engine) (s : SpatialRef) :
    ((e.OSRGetAreaOfUse s.ptr).ret ≠ 1 → SpatialRef.area_of_use e s = none) ∧
    ((e.OSRGetAreaOfUse s.ptr).ret = 1 →
      SpatialRef.area_of_use e s = some
        { west_lon_degree := (e.OSRGetAreaOfUse s.ptr).west,
          south_lat_degree := (e.OSRGetAreaOfUse s.ptr).south,
          east_lon_degree := (e.OSRGetAreaOfUse s.ptr).east,
          north_lat_degree := (e.OSRGetAreaOfUse s.ptr).north,
          name := cstr_string (e.OSRGetAreaOfUse s.ptr).namePtr }) := by
  constructor <;> intro h <;> simp [SpatialRef.area_of_use, h]

/-- Claim C7, witness: an engine reporting no area of use (return value `0`)
makes `area_of_use` return `none`. -/
theorem srs_c7_witness :
    SpatialRef.area_of_use engNoArea ⟨some 1⟩ = none :=
  (srs_c7 engNoArea ⟨some 1⟩).1 (by decide)

/-- Claim C8: for every public operation passing a host string to the engine,
an input string with an embedded null byte makes the operation return the
structured text-encoding error as a value (no panic), and no foreign call is
made with that string — for `from_definition` only the null-argument
allocation has already happened (hence the allocation-success hypothesis),
and its trace mentions the input nowhere; every other listed operation makes
no foreign call at all. -/
theorem srs_c8 (e : Engine) (s : SpatialRef) (x p v : String) (ax : Int)
    (child : Nat) (val : Float)
    (halloc : (e.OSRNewSpatialReference none).isSome = true)
    (hx : hasNul x = true) :
    (SpatialRef.from_definition e x).1 = .error .FfiNulError ∧
    ((SpatialRef.from_definition e x).2.all fun ev => !(ev.mentions x)) = true ∧
    SpatialRef.from_wkt e x = (.error .FfiNulError, []) ∧
    SpatialRef.from_proj4 e x = (.error .FfiNulError, []) ∧
    SpatialRef.from_esri e x = (.error .FfiNulError, []) ∧
    SpatialRef.set_proj_param e s x val = (.error .FfiNulError, []) ∧
    SpatialRef.get_proj_param e s x = (.error .FfiNulError, []) ∧
    SpatialRef.set_attr_value e s x v = (.error .FfiNulError, []) ∧
    SpatialRef.set_attr_value e s p x = (.error .FfiNulError, []) ∧
    SpatialRef.get_attr_value e s x child = (.error .FfiNulError, []) ∧
    SpatialRef.axis_orientation e s x ax = (.error .FfiNulError, []) ∧
    SpatialRef.axis_name e s x ax = (.error .FfiNulError, []) := by
  obtain ⟨a, ha⟩ := Option.isSome_iff_exists.mp halloc
  refine ⟨?_, ?_, ?_, ?_, ?_, ?_, ?_, ?_, ?_, ?_, ?_, ?_⟩
  · simp [SpatialRef.from_definition, ha, cstringNew, hx]
  · simp [SpatialRef.from_definition, ha, cstringNew, hx, Event.mentions]
  · simp [SpatialRef.from_wkt, cstringNew, hx]
  · simp [SpatialRef.from_proj4, cstringNew, hx]
  · simp [SpatialRef.from_esri, cstringNew, hx]
  · simp [SpatialRef.set_proj_param, cstringNew, hx]
  · simp [SpatialRef.get_proj_param, cstringNew, hx]
  · simp [SpatialRef.set_attr_value, cstringNew, hx]
  · rcases hQ : hasNul p with _ | _ <;>
      simp [SpatialRef.set_attr_value, cstringNew, hQ, hx]
  · simp [SpatialRef.get_attr_value, cstringNew, hx]
  · simp [SpatialRef.axis_orientation, cstringNew, hx]
  · simp [SpatialRef.axis_name, cstringNew, hx]

/-- Claim C8, witness: the string `"a\x00b"` (embedded null byte) makes
`from_wkt` and `set_attr_value` on `eng0` return the text-encoding error
without any foreign call. -/
theorem srs_c8_witness :
    SpatialRef.from_wkt eng0 "a\x00b" = (.error .FfiNulError, []) ∧
    SpatialRef.set_attr_value eng0 ⟨some 1⟩ "GEOGCS" "a\x00b" =
      (.error .FfiNulError, []) :=
  ⟨(srs_c8 eng0 ⟨some 1⟩ "a\x00b" "GEOGCS" "v" 0 0 1.0 rfl (by decide)).2.2.1,
   (srs_c8 eng0 ⟨some 1⟩ "a\x00b" "GEOGCS" "v" 0 0 1.0 rfl (by decide)).2.2.2.2.2.2.2.2.1⟩

/-- Claim C9: handle equality and all seven boolean predicates hold exactly
when the engine's integer answer is the exact value `1`; consequently any
other return value — `0`, negative, or an error sentinel — yields `false`
(or "not equal"), the operations are total (`Bool`-valued, no error channel),
and an engine-side error is indistinguishable from `false`. -/
theorem srs_c9 (e : Engine) (a b : SpatialRef) (v : Int) :
    (SpatialRef.eq e a b = true ↔ e.OSRIsSame a.ptr b.ptr = 1) ∧
    (SpatialRef.is_geographic e a = true ↔ e.OSRIsGeographic a.ptr = 1) ∧
    (SpatialRef.is_derived_geographic e a = true ↔
      e.OSRIsDerivedGeographic a.ptr = 1) ∧
    (SpatialRef.is_local e a = true ↔ e.OSRIsLocal a.ptr = 1) ∧
    (SpatialRef.is_projected e a = true ↔ e.OSRIsProjected a.ptr = 1) ∧
    (SpatialRef.is_compound e a = true ↔ e.OSRIsCompound a.ptr = 1) ∧
    (SpatialRef.is_geocentric e a = true ↔ e.OSRIsGeocentric a.ptr = 1) ∧
    (SpatialRef.is_vertical e a = true ↔ e.OSRIsVertical a.ptr = 1) ∧
    (e.OSRIsGeographic a.ptr = v → v ≠ 1 → SpatialRef.is_geographic e a = false) ∧
    (e.OSRIsSame a.ptr b.ptr = v → v ≠ 1 → SpatialRef.eq e a b = false) := by
  refine ⟨?_, ?_, ?_, ?_, ?_, ?_, ?_, ?_, fun hv hne => ?_, fun hv hne => ?_⟩ <;>
    simp [SpatialRef.eq, SpatialRef.is_geographic, SpatialRef.is_derived_geographic,
      SpatialRef.is_local, SpatialRef.is_projected, SpatialRef.is_compound,
      SpatialRef.is_geocentric, SpatialRef.is_vertical] <;>
    simp [hv, hne]

/-- Claim C9, witness: an engine answering the error sentinel `-1` makes
`is_geographic` report `false` and makes two handles compare not equal. -/
theorem srs_c9_witness :
    SpatialRef.is_geographic engNeg ⟨some 1⟩ = false ∧
    SpatialRef.eq engNeg ⟨some 1⟩ ⟨some 2⟩ = false :=
  ⟨(srs_c9 engNeg ⟨some 1⟩ ⟨some 2⟩ (-1)).2.2.2.2.2.2.2.2.1 rfl (by decide),
   (srs_c9 engNeg ⟨some 1⟩ ⟨some 2⟩ (-1)).2.2.2.2.2.2.2.2.2 rfl (by decide)⟩

/-- Claim C10: `from_epsg` casts its `u32` code to a C `int` with a wrapping
cast, so every code at or above `2^31` reaches the engine as the negative
value `code - 2^32`, with no range check before the foreign call (the trace
always contains the import call); `get_attr_value`'s `u32` child index wraps
the same way. -/
theorem srs_c10 (e : Engine) (s : SpatialRef) (code child : Nat) (p : String)
    (hc1 : 2 ^ 31 ≤ code) (hc2 : code < 2 ^ 32)
    (hh1 : 2 ^ 31 ≤ child) (hh2 : child < 2 ^ 32)
    (hp : hasNul p = false) :
    u32_as_c_int code = (code : Int) - 2 ^ 32 ∧
    u32_as_c_int code < 0 ∧
    (SpatialRef.from_epsg e code).2 =
      [Event.callNew none (e.OSRNewSpatialReference none),
        Event.callImportFromEPSG (e.OSRNewSpatialReference none)
          ((code : Int) - 2 ^ 32)] ∧
    u32_as_c_int child < 0 ∧
    (SpatialRef.get_attr_value e s p child).2 =
      [Event.callGetAttrValue s.ptr p (u32_as_c_int child)] := by
  have h1 : u32_as_c_int code = (code : Int) - 2 ^ 32 := by
    simp only [u32_as_c_int, if_neg (by omega : ¬ code < 2 ^ 31)]
  have h2 : u32_as_c_int child = (child : Int) - 2 ^ 32 := by
    simp only [u32_as_c_int, if_neg (by omega : ¬ child < 2 ^ 31)]
  refine ⟨h1, by rw [h1]; omega, ?_, by rw [h2]; omega, ?_⟩
  · simp [SpatialRef.from_epsg, h1]
  · simp [SpatialRef.get_attr_value, cstringNew, hp]

/-- Claim C10, witness: the code `2^31` reaches the engine as the negative
value `-2^31` inside `from_epsg`'s import call. -/
theorem srs_c10_witness :
    u32_as_c_int (2 ^ 31) = ((2 ^ 31 : Nat) : Int) - 2 ^ 32 ∧
    u32_as_c_int (2 ^ 31) < 0 ∧
    (SpatialRef.from_epsg eng0 (2 ^ 31)).2 =
      [Event.callNew none (some 1),
        Event.callImportFromEPSG (some 1) (((2 ^ 31 : Nat) : Int) - 2 ^ 32)] := by
  have h := srs_c10 eng0 ⟨some 1⟩ (2 ^ 31) (2 ^ 31) "GEOGCS"
    (le_refl _) (by norm_num) (le_refl _) (by norm_num) (by decide)
  exact ⟨h.1, h.2.1, h.2.2.1⟩
